import Mathlib

/-!
Verification development for the Battle City repository.

The definitions below are a shallow embedding of the Python sources:
`src/sprites.py` (Bullet, PowerUp), `src/tank.py` (Tank.move, PlayerTank.hit,
PlayerTank.upgrade, EnemyTank), `src/game.py` (Game.spawn_enemies, the
lose-condition check, PowerUp.apply_effect's grenade loop),
`src/level.py` (Level.load_level and Level._create_default_level), and
`src/BattleCityNES/sprites.py` (BrickWall.damage, SteelWall.damage).
Positions and counters are integers exactly as in the source (all the
embedded code paths use integer speeds); wall-clock `pygame.time.get_ticks()`
reads are passed in as an explicit `now : Int` argument; `random.*` draws are
passed in as explicit parameters, following the spec's seedable-randomness
design note.
-/

namespace BattleCity

/-- Screen width in pixels (`constants.py`). -/
def SCREEN_WIDTH : Int := 640

/-- Screen height in pixels (`constants.py`). -/
def SCREEN_HEIGHT : Int := 480

/-- Side of one grid tile in pixels (`constants.py`). -/
def TILE_SIZE : Int := 32

/-- Bullet speed in pixels per tick (`constants.py`). -/
def BULLET_SPEED : Int := 4

/-- Concurrency cap on simultaneously live enemies (`constants.py`). -/
def MAX_ENEMIES_ON_SCREEN : Int := 4

/-- Total enemy quota per level (`constants.py`). -/
def MAX_ENEMY_COUNT : Int := 20

/-- Delay between enemy spawns in milliseconds (`constants.py`). -/
def ENEMY_SPAWN_DELAY : Int := 3000

/-- The four cardinal facing directions (`UP/RIGHT/DOWN/LEFT` in `constants.py`). -/
inductive Dir where
  | up
  | right
  | down
  | left
deriving DecidableEq, Repr

/-- Tile kinds of the terrain grid (`EMPTY/BRICK/STEEL/WATER/GRASS/ICE/BASE`). -/
inductive Tile where
  | empty
  | brick
  | steel
  | water
  | grass
  | ice
  | base
deriving DecidableEq, Repr

/-- An axis-aligned rectangle, mirroring `pygame.Rect` (x, y, width, height). -/
structure Rect where
  x : Int
  y : Int
  w : Int
  h : Int
deriving DecidableEq, Repr

/-- `pygame.Rect.colliderect`: strict overlap test (touching edges do not collide). -/
def Rect.colliderect (a b : Rect) : Bool :=
  a.x < b.x + b.w && b.x < a.x + a.w && a.y < b.y + b.h && b.y < a.y + a.h

/-- The terrain store of the tile-grid game variant: dimensions in tiles, the
tile at each (column, row), and the `base_destroyed` flag that
`Bullet.check_terrain_collision` raises (`src/sprites.py` line 362). -/
structure LevelState where
  width : Int
  height : Int
  grid : Int → Int → Tile
  baseDestroyed : Bool

/-- Modelled from the spec: the `Level` tile-store class of the tile-grid game
variant is not under `src/` (only its callers are); spec section 4.1 gives its
contract, with `setTile` a no-op for out-of-bounds writes. -/
def setTile (lv : LevelState) (cx cy : Int) (t : Tile) : LevelState :=
  if cx < 0 ∨ cx ≥ lv.width ∨ cy < 0 ∨ cy ≥ lv.height then lv
  else { lv with grid := fun a b => if a = cx ∧ b = cy then t else lv.grid a b }

/-- World-space rectangle of the tile at tile coordinates (cx, cy)
(`src/sprites.py` line 331). -/
def tileRect (cx cy : Int) : Rect :=
  ⟨cx * TILE_SIZE, cy * TILE_SIZE, TILE_SIZE, TILE_SIZE⟩

/-- State of the player tank (`PlayerTank` in `src/tank.py`): position, facing,
speed, combat stats, upgrade level, and the three invulnerability flags with
their wall-clock timers. -/
structure PlayerState where
  x : Int
  y : Int
  dir : Dir
  speed : Int
  health : Int
  lives : Int
  power : Int
  plevel : Int
  reloadTime : Int
  shield : Bool
  shieldTimer : Int
  invincible : Bool
  invincibleTimer : Int
  spawnProtection : Bool
  spawnTimer : Int
deriving DecidableEq, Repr

/-- State of one enemy tank (`EnemyTank` in `src/tank.py`). -/
structure Enemy where
  x : Int
  y : Int
  dir : Dir
  speed : Int
  health : Int
  lives : Int
  tankType : Nat
deriving DecidableEq, Repr

/-- Identity of the tank that fired a bullet (`Bullet.owner`): the player or
the enemy at a given index of the live-enemy list. Used for the
`self.owner != ...` identity tests in `Bullet.check_tank_collision` and
`Tank.check_tank_collision`. -/
inductive Owner where
  | player
  | enemy (i : Nat)
deriving DecidableEq, Repr

/-- State of one bullet (`Bullet` in `src/sprites.py`). -/
structure BulletState where
  x : Int
  y : Int
  dir : Dir
  owner : Owner
  power : Int
  toRemove : Bool
deriving DecidableEq, Repr

/-- State of one power-up item (`PowerUp` in `src/sprites.py`). -/
structure PowerUpState where
  x : Int
  y : Int
  ptype : Nat
  collected : Bool
  counter : Int
  visible : Bool
  blinkCounter : Int
deriving DecidableEq, Repr

/-- The mutable world state shared by the embedded operations (the `Game`
object of `src/game.py`): terrain, player, live enemies, the other live
bullets, score and spawn bookkeeping, the freeze flag, and event counters for
the fire-and-forget side effects (explosions spawned, `spawn_power_up` calls). -/
structure GameState where
  level : LevelState
  player : PlayerState
  enemies : List Enemy
  bullets : List BulletState
  score : Int
  enemiesLeft : Int
  enemiesOnScreen : Int
  enemySpawnTimer : Int
  enemyFreeze : Bool
  freezeTimer : Int
  spawnPowerUpCalls : Nat
  explosionsSmall : Nat
  explosionsLarge : Nat

/-- Collision rectangle of a tank at (x, y) (`Tank.get_rect`). -/
def tankRect (x y : Int) : Rect := ⟨x, y, TILE_SIZE, TILE_SIZE⟩

/-- Collision rectangle of the player tank. -/
def playerRect (p : PlayerState) : Rect := tankRect p.x p.y

/-- Collision rectangle of a bullet (`Bullet.get_rect`): 4x8 for vertical
travel, 8x4 for horizontal, centered on the bullet position. -/
def bulletRect (x y : Int) (d : Dir) : Rect :=
  match d with
  | .up | .down => ⟨x - 2, y - 4, 4, 8⟩
  | .right | .left => ⟨x - 4, y - 2, 8, 4⟩

/-- Per-direction bullet velocity (`Bullet.__init__`). -/
def bulletVel : Dir → Int × Int
  | .up => (0, -BULLET_SPEED)
  | .right => (BULLET_SPEED, 0)
  | .down => (0, BULLET_SPEED)
  | .left => (-BULLET_SPEED, 0)

/-- `Tank.hit` (`src/tank.py` lines 171-190) specialised to the player's
fields: decrement health; at zero health decrement lives, report destruction
at zero lives, otherwise reset health to 1. -/
def tankHitP (p : PlayerState) : PlayerState × Bool :=
  let health := p.health - 1
  if health ≤ 0 then
    let lives := p.lives - 1
    if lives ≤ 0 then ({ p with health := health, lives := lives }, true)
    else ({ p with health := 1, lives := lives }, false)
  else ({ p with health := health }, false)

/-- `PlayerTank.hit` (`src/tank.py` lines 281-292): the hit is ignored
(returns false, state unchanged) while invincible, shielded, or under spawn
protection; otherwise defers to `Tank.hit`. -/
def playerHit (p : PlayerState) : PlayerState × Bool :=
  if p.invincible || p.shield || p.spawnProtection then (p, false)
  else tankHitP p

/-- `Tank.hit` for an enemy tank (enemies do not override `hit`). -/
def enemyHit (e : Enemy) : Enemy × Bool :=
  let health := e.health - 1
  if health ≤ 0 then
    let lives := e.lives - 1
    if lives ≤ 0 then ({ e with health := health, lives := lives }, true)
    else ({ e with health := 1, lives := lives }, false)
  else ({ e with health := health }, false)

/-- Result of `Bullet.check_terrain_collision`: the possibly mutated terrain,
whether the bullet hit solid terrain (and is marked for removal), and how many
small/large explosions were spawned. -/
structure TerrainOutcome where
  level : LevelState
  hit : Bool
  expSmall : Nat
  expLarge : Nat

/-- The nine surrounding-tile offsets scanned by
`Bullet.check_terrain_collision`, in Python's loop order
(`for dx in [-1,0,1]: for dy in [-1,0,1]`). -/
def offsets9 : List (Int × Int) :=
  [(-1, -1), (-1, 0), (-1, 1), (0, -1), (0, 0), (0, 1), (1, -1), (1, 0), (1, 1)]

/-- The scan loop of `Bullet.check_terrain_collision` (`src/sprites.py`
lines 320-366): skip out-of-bounds tiles; on the first overlapping Brick,
destroy it and stop; on the first overlapping Steel, stop (destroying the tile
only when the bullet's power exceeds 1); on the first overlapping Base,
destroy it, raise `base_destroyed`, and stop; Water and the passable tiles are
transparent. -/
def terrainLoop (r : Rect) (power : Int) (tx ty : Int) (lv : LevelState) :
    List (Int × Int) → TerrainOutcome
  | [] => ⟨lv, false, 0, 0⟩
  | (dx, dy) :: rest =>
    let cx := tx + dx
    let cy := ty + dy
    if cx < 0 ∨ cx ≥ lv.width ∨ cy < 0 ∨ cy ≥ lv.height then
      terrainLoop r power tx ty lv rest
    else if (tileRect cx cy).colliderect r then
      match lv.grid cx cy with
      | .brick => ⟨setTile lv cx cy .empty, true, 1, 0⟩
      | .steel =>
        if power > 1 then ⟨setTile lv cx cy .empty, true, 1, 0⟩
        else ⟨lv, true, 1, 0⟩
      | .base => ⟨{ setTile lv cx cy .empty with baseDestroyed := true }, true, 0, 1⟩
      | _ => terrainLoop r power tx ty lv rest
    else terrainLoop r power tx ty lv rest

/-- Result of the enemy loop of `Bullet.check_tank_collision`: the updated
enemy list, score delta, how many enemies were removed (0 or 1), how many
`spawn_power_up` calls were made, explosion counts, and whether any enemy was
hit (terminating the loop). -/
structure EnemyHitOutcome where
  enemies : List Enemy
  scoreDelta : Int
  removed : Nat
  spawnCalls : Nat
  expSmall : Nat
  expLarge : Nat
  hit : Bool

/-- Kill points per enemy kind (`src/sprites.py` lines 393-399); unknown kinds
default to 100 (`points.get(enemy.tank_type, 100)`). -/
def killPoints (t : Nat) : Int :=
  if t = 0 then 100
  else if t = 1 then 200
  else if t = 2 then 300
  else if t = 3 then 400
  else 100

/-- The enemy loop of `Bullet.check_tank_collision` (`src/sprites.py`
lines 381-405): scan live enemies in order; on the first enemy that is not the
bullet's owner and overlaps the bullet, apply `Tank.hit`; if destroyed, remove
it from the list, decrement the on-screen counter, award kill points, and call
`spawn_power_up`; either way spawn an explosion (large when the enemy's health
is exhausted) and stop. -/
def enemyLoop (owner : Owner) (r : Rect) : Nat → List Enemy → EnemyHitOutcome
  | _, [] => ⟨[], 0, 0, 0, 0, 0, false⟩
  | i, e :: rest =>
    if (owner != Owner.enemy i) && r.colliderect (tankRect e.x e.y) then
      let h := enemyHit e
      if h.2 then
        ⟨rest, killPoints e.tankType, 1, 1,
         (if h.1.health ≤ 0 then 0 else 1), (if h.1.health ≤ 0 then 1 else 0), true⟩
      else
        ⟨h.1 :: rest, 0, 0, 0,
         (if h.1.health ≤ 0 then 0 else 1), (if h.1.health ≤ 0 then 1 else 0), true⟩
    else
      let o := enemyLoop owner r (i + 1) rest
      ⟨e :: o.enemies, o.scoreDelta, o.removed, o.spawnCalls, o.expSmall, o.expLarge, o.hit⟩

/-- `Bullet.check_tank_collision` (`src/sprites.py` lines 368-405): first the
player branch (owner is not the player, the player has lives, and the rects
overlap: mark the bullet for removal, call `PlayerTank.hit`, spawn a large
explosion, stop), then the enemy loop. Note there is no `to_remove` guard: the
method runs even when the bullet already hit terrain this tick. -/
def checkTankCollision (owner : Owner) (r : Rect) (b : BulletState) (gs : GameState) :
    BulletState × GameState :=
  if (owner != Owner.player) && decide (gs.player.lives > 0)
      && r.colliderect (playerRect gs.player) then
    ({ b with toRemove := true },
     { gs with player := (playerHit gs.player).1,
               explosionsLarge := gs.explosionsLarge + 1 })
  else
    let o := enemyLoop owner r 0 gs.enemies
    if o.hit then
      ({ b with toRemove := true },
       { gs with enemies := o.enemies,
                 enemiesOnScreen := gs.enemiesOnScreen - o.removed,
                 score := gs.score + o.scoreDelta,
                 spawnPowerUpCalls := gs.spawnPowerUpCalls + o.spawnCalls,
                 explosionsSmall := gs.explosionsSmall + o.expSmall,
                 explosionsLarge := gs.explosionsLarge + o.expLarge })
    else (b, gs)

/-- The loop of `Bullet.check_bullet_collision` (`src/sprites.py`
lines 407-417) over the other live bullets: mark the first not-yet-removed
overlapping bullet, report whether one was found. -/
def bulletLoop (r : Rect) : List BulletState → List BulletState × Bool
  | [] => ([], false)
  | bl :: rest =>
    if !bl.toRemove && r.colliderect (bulletRect bl.x bl.y bl.dir) then
      ({ bl with toRemove := true } :: rest, true)
    else
      let o := bulletLoop r rest
      (bl :: o.1, o.2)

/-- `Bullet.update` (`src/sprites.py` lines 285-309): integrate position,
expire out-of-bounds bullets, then run the terrain check, the tank check, and
the bullet-vs-bullet check in sequence — each unconditionally, exactly as in
the source (there is no early return after a terrain hit). -/
def bulletUpdate (b : BulletState) (gs : GameState) : BulletState × GameState :=
  let v := bulletVel b.dir
  let b := { b with x := b.x + v.1, y := b.y + v.2 }
  let r := bulletRect b.x b.y b.dir
  if b.x < 0 ∨ b.x > SCREEN_WIDTH ∨ b.y < 0 ∨ b.y > SCREEN_HEIGHT then
    ({ b with toRemove := true }, gs)
  else
    let tOut := terrainLoop r b.power (Int.fdiv b.x TILE_SIZE) (Int.fdiv b.y TILE_SIZE)
        gs.level offsets9
    let gs := { gs with level := tOut.level,
                        explosionsSmall := gs.explosionsSmall + tOut.expSmall,
                        explosionsLarge := gs.explosionsLarge + tOut.expLarge }
    let b := if tOut.hit then { b with toRemove := true } else b
    let tk := checkTankCollision b.owner r b gs
    let b := tk.1
    let gs := tk.2
    let bo := bulletLoop r gs.bullets
    let b := if bo.2 then { b with toRemove := true } else b
    let gs := if bo.2 then
        { gs with bullets := bo.1, explosionsSmall := gs.explosionsSmall + 1 }
      else { gs with bullets := bo.1 }
    (b, gs)

/-- The facing-direction assignment at the top of `Tank.move`
(`src/tank.py` lines 48-56): horizontal movement wins, then vertical; a zero
move vector leaves the facing unchanged. Note the source runs this before any
collision check. -/
def moveDir (dx dy : Int) (d : Dir) : Dir :=
  if dx > 0 then .right
  else if dx < 0 then .left
  else if dy > 0 then .down
  else if dy < 0 then .up
  else d

/-- The inclusive integer range [a, b], mirroring Python's
`range(a, b + 1)`. -/
def intRange (a b : Int) : List Int :=
  (List.range (b + 1 - a).toNat).map (fun i => a + (i : Int))

/-- `Tank.check_terrain_collision` (`src/tank.py` lines 82-112): every tile
under the candidate rectangle is probed; an out-of-bounds tile or a tile in
{Brick, Steel, Water, Base} blocks. -/
def checkTerrainBlock (lv : LevelState) (r : Rect) : Bool :=
  (intRange (Int.fdiv r.x TILE_SIZE) (Int.fdiv (r.x + r.w - 1) TILE_SIZE)).any fun tx =>
    (intRange (Int.fdiv r.y TILE_SIZE) (Int.fdiv (r.y + r.h - 1) TILE_SIZE)).any fun ty =>
      if tx < 0 ∨ tx ≥ lv.width ∨ ty < 0 ∨ ty ≥ lv.height then true
      else
        match lv.grid tx ty with
        | .brick | .steel | .water | .base => true
        | _ => false

/-- `Tank.check_tank_collision` (`src/tank.py` lines 114-134): the candidate
rectangle is blocked by the player tank (when the mover is not the player and
the player has lives) or by any other enemy tank. -/
def checkTankBlock (who : Owner) (r : Rect) (gs : GameState) : Bool :=
  ((who != Owner.player) && decide (gs.player.lives > 0)
      && r.colliderect (playerRect gs.player))
  || gs.enemies.enum.any fun p =>
      (who != Owner.enemy p.1) && r.colliderect (tankRect p.2.x p.2.y)

/-- Movement-relevant fields of a tank, extracted for `Tank.move`. -/
structure TankM where
  x : Int
  y : Int
  dir : Dir
  speed : Int
deriving DecidableEq, Repr

/-- `Tank.move` (`src/tank.py` lines 40-80): set the facing direction from the
move vector, compute the candidate position, then reject the move (returning
false with the position unchanged — but the facing already updated) when the
candidate exits the world bounds, overlaps solid terrain, or overlaps another
tank; otherwise commit the position and return true. -/
def tankMove (who : Owner) (dx dy : Int) (t : TankM) (gs : GameState) : TankM × Bool :=
  let t := { t with dir := moveDir dx dy t.dir }
  let nx := t.x + dx * t.speed
  let ny := t.y + dy * t.speed
  if nx < 0 ∨ nx > SCREEN_WIDTH - TILE_SIZE ∨ ny < 0 ∨ ny > SCREEN_HEIGHT - TILE_SIZE then
    (t, false)
  else if checkTerrainBlock gs.level ⟨nx, ny, TILE_SIZE, TILE_SIZE⟩ then (t, false)
  else if checkTankBlock who ⟨nx, ny, TILE_SIZE, TILE_SIZE⟩ gs then (t, false)
  else ({ t with x := nx, y := ny }, true)

/-- A `Tank.move` call on the player tank, written back into the game state. -/
def applyPlayerMove (dx dy : Int) (gs : GameState) : GameState :=
  let r := tankMove Owner.player dx dy ⟨gs.player.x, gs.player.y, gs.player.dir, gs.player.speed⟩ gs
  { gs with player := { gs.player with x := r.1.x, y := r.1.y, dir := r.1.dir } }

/-- A `Tank.move` call on the enemy at index `i`, written back into the game
state (no-op for an out-of-range index). -/
def applyEnemyMove (i : Nat) (dx dy : Int) (gs : GameState) : GameState :=
  match gs.enemies.get? i with
  | none => gs
  | some e =>
    let r := tankMove (Owner.enemy i) dx dy ⟨e.x, e.y, e.dir, e.speed⟩ gs
    { gs with enemies := gs.enemies.set i { e with x := r.1.x, y := r.1.y, dir := r.1.dir } }

/-- `PlayerTank.upgrade` (`src/tank.py` lines 311-325). -/
def playerUpgrade (p : PlayerState) : PlayerState :=
  let lvl := min (p.plevel + 1) 4
  let p := { p with plevel := lvl }
  let p := if lvl ≥ 2 then { p with reloadTime := 800 } else p
  let p := if lvl ≥ 3 then { p with power := 2 } else p
  if lvl ≥ 4 then { p with speed := 3 } else p

/-- Modelled from the spec: `Level.upgrade_base_walls` is called by the Shovel
power-up (`src/sprites.py` line 592) but the `Level` class body is not under
`src/`; spec section 4.1 says it converts Brick tiles in the 8-neighborhood of
the Base tile to Steel and is idempotent. -/
def upgradeBaseWalls (lv : LevelState) : LevelState :=
  { lv with grid := fun a b =>
      if lv.grid a b = Tile.brick
          && offsets9.any (fun o => lv.grid (a + o.1) (b + o.2) = Tile.base) then
        Tile.steel
      else lv.grid a b }

/-- The grenade loop of `PowerUp.apply_effect` (`src/sprites.py`
lines 573-579): iterate over a snapshot of the live enemies; for each, spawn a
large explosion, add a flat 100 points, remove it from the live list, and
decrement the on-screen counter. No power-up is spawned and no kind-dependent
points are awarded. -/
def grenadeLoop : List Enemy → GameState → GameState
  | [], gs => gs
  | e :: rest, gs =>
    grenadeLoop rest
      { gs with explosionsLarge := gs.explosionsLarge + 1,
                score := gs.score + 100,
                enemies := gs.enemies.erase e,
                enemiesOnScreen := gs.enemiesOnScreen - 1 }

/-- The Grenade branch of `PowerUp.apply_effect`, iterating over the snapshot
`self.game.enemies[:]`. -/
def applyGrenade (gs : GameState) : GameState :=
  grenadeLoop gs.enemies gs

/-- Power-up kind codes (`constants.py`): Shield 0, Freeze 1, ExtraLife 2,
Grenade 3, Helmet 4, Clock 5, Shovel 6, Star 7. -/
def SHIELD : Nat := 0

/-- Freeze power-up kind code. -/
def FREEZE : Nat := 1

/-- Extra-life power-up kind code. -/
def EXTRA_LIFE : Nat := 2

/-- Grenade power-up kind code. -/
def GRENADE : Nat := 3

/-- Helmet power-up kind code. -/
def HELMET : Nat := 4

/-- Clock power-up kind code. -/
def CLOCK : Nat := 5

/-- Shovel power-up kind code. -/
def SHOVEL : Nat := 6

/-- Star power-up kind code. -/
def STAR : Nat := 7

/-- `PowerUp.apply_effect` (`src/sprites.py` lines 555-596); wall-clock
timer reads are the `now` argument. -/
def applyEffect (ptype : Nat) (now : Int) (gs : GameState) : GameState :=
  if ptype = SHIELD then
    { gs with player := { gs.player with shield := true, shieldTimer := now } }
  else if ptype = FREEZE then
    { gs with enemyFreeze := true, freezeTimer := now }
  else if ptype = EXTRA_LIFE then
    { gs with player := { gs.player with lives := gs.player.lives + 1 } }
  else if ptype = GRENADE then applyGrenade gs
  else if ptype = HELMET then
    { gs with player := { gs.player with invincible := true, invincibleTimer := now } }
  else if ptype = CLOCK then gs
  else if ptype = SHOVEL then { gs with level := upgradeBaseWalls gs.level }
  else if ptype = STAR then { gs with player := playerUpgrade gs.player }
  else gs

/-- The configured power-up lifetime in ticks (`self.lifespan = 600` in
`PowerUp.__init__`). -/
def POWERUP_LIFESPAN : Int := 600

/-- `PowerUp.update` (`src/sprites.py` lines 526-553): advance the counter,
run the blink logic in the last 180 ticks, expire (mark collected, no effect)
once the counter reaches the lifespan, otherwise collect on overlap with a
living player, applying the effect and awarding 500 bonus points. The third
component reports whether `apply_effect` was called. -/
def powerUpUpdate (pu : PowerUpState) (now : Int) (gs : GameState) :
    PowerUpState × GameState × Bool :=
  let pu := { pu with counter := pu.counter + 1 }
  let pu :=
    if pu.counter > POWERUP_LIFESPAN - 180 then
      if pu.blinkCounter + 1 ≥ 10 then { pu with blinkCounter := 0, visible := !pu.visible }
      else { pu with blinkCounter := pu.blinkCounter + 1 }
    else pu
  if pu.counter ≥ POWERUP_LIFESPAN then
    ({ pu with collected := true }, gs, false)
  else if decide (gs.player.lives > 0)
      && (Rect.mk pu.x pu.y TILE_SIZE TILE_SIZE).colliderect (playerRect gs.player) then
    let gs := applyEffect pu.ptype now gs
    ({ pu with collected := true }, { gs with score := gs.score + 500 }, true)
  else (pu, gs, false)

/-- `Game.spawn_enemies` (`src/game.py` lines 197-225): when the quota is not
exhausted, the on-screen count is below the cap, and the spawn delay has
elapsed, reset the timer and — if the spawn-point list is nonempty — create
one enemy at the chosen point with the chosen kind, decrementing the quota and
incrementing the on-screen count. The `random.choice`/`random.choices` draws
are the `choice` and `ttype` parameters; the spawn-point list comes from the
level. -/
def spawnEnemies (now : Int) (positions : List (Int × Int)) (choice : Nat) (ttype : Nat)
    (gs : GameState) : GameState :=
  if decide (gs.enemiesLeft > 0) && decide (gs.enemiesOnScreen < MAX_ENEMIES_ON_SCREEN)
      && decide (now - gs.enemySpawnTimer > ENEMY_SPAWN_DELAY) then
    let gs := { gs with enemySpawnTimer := now }
    match positions with
    | [] => gs
    | _ =>
      let p := positions.getD choice (0, 0)
      { gs with
          enemies := gs.enemies
            ++ [⟨p.1, p.2, Dir.up, 1, (if ttype = 3 then 4 else 1), 1, ttype⟩],
          enemiesLeft := gs.enemiesLeft - 1,
          enemiesOnScreen := gs.enemiesOnScreen + 1 }
  else gs

/-- `PlayerTank.respawn` (`src/tank.py` lines 294-309): reposition at the
level's start position, reset facing and health, enable spawn protection. -/
def applyRespawn (pos : Int × Int) (now : Int) (gs : GameState) : GameState :=
  { gs with player := { gs.player with
      x := pos.1, y := pos.2, dir := Dir.up, health := 1,
      spawnProtection := true, spawnTimer := now } }

/-- The status-timer expiry block at the top of `PlayerTank.update`
(`src/tank.py` lines 246-258). -/
def playerStatusUpdate (now : Int) (p : PlayerState) : PlayerState :=
  let p := if p.spawnProtection && decide (now - p.spawnTimer > 3000) then
      { p with spawnProtection := false } else p
  let p := if p.shield && decide (now - p.shieldTimer > 10000) then
      { p with shield := false } else p
  if p.invincible && decide (now - p.invincibleTimer > 10000) then
    { p with invincible := false } else p

/-- The player status-expiry step lifted to the game state. -/
def applyStatusUpdate (now : Int) (gs : GameState) : GameState :=
  { gs with player := playerStatusUpdate now gs.player }

/-- The lose-condition check of `Game.update_playing` (`src/game.py`
lines 193-195): the game is over when the player's lives are exhausted or the
base is destroyed. -/
def loseCheck (gs : GameState) : Bool :=
  decide (gs.player.lives ≤ 0) || gs.level.baseDestroyed

/-- One in-level step of the embedded simulation: any of the mutating
operations of the sources may run, with its external inputs (the acting
bullet, move vectors, wall-clock reads, random draws) chosen arbitrarily. -/
inductive Step : GameState → GameState → Prop
  | bullet (b : BulletState) (gs : GameState) : Step gs (bulletUpdate b gs).2
  | playerMove (dx dy : Int) (gs : GameState) : Step gs (applyPlayerMove dx dy gs)
  | enemyMove (i : Nat) (dx dy : Int) (gs : GameState) : Step gs (applyEnemyMove i dx dy gs)
  | powerUp (pu : PowerUpState) (now : Int) (gs : GameState) :
      Step gs (powerUpUpdate pu now gs).2.1
  | spawn (now : Int) (positions : List (Int × Int)) (choice : Nat) (ttype : Nat)
      (gs : GameState) : Step gs (spawnEnemies now positions choice ttype gs)
  | respawn (pos : Int × Int) (now : Int) (gs : GameState) :
      Step gs (applyRespawn pos now gs)
  | status (now : Int) (gs : GameState) : Step gs (applyStatusUpdate now gs)

/-- The enemy-count bookkeeping invariant: the `enemies_on_screen` counter
matches the length of the live-enemy list, which never exceeds the cap of 4. -/
def EnemyCountInv (gs : GameState) : Prop :=
  gs.enemiesOnScreen = (gs.enemies.length : Int) ∧ gs.enemies.length ≤ 4

/-- State of a destructible brick wall in the `BattleCityNES` variant
(`src/BattleCityNES/sprites.py`): `health` starts at 4; `alive` is false once
`kill()` has run. -/
structure BrickWallState where
  health : Int
  alive : Bool
deriving DecidableEq, Repr

/-- A freshly constructed `BrickWall` (`self.health = 4`). -/
def freshBrick : BrickWallState := ⟨4, true⟩

/-- `BrickWall.damage` (`src/BattleCityNES/sprites.py` lines 35-46): decrement
health; at zero, kill the sprite and return destroyed = true, otherwise return
false. -/
def brickDamage (w : BrickWallState) : BrickWallState × Bool :=
  let w := { w with health := w.health - 1 }
  if w.health ≤ 0 then ({ w with alive := false }, true)
  else (w, false)

/-- State of an indestructible steel wall in the `BattleCityNES` variant. -/
structure SteelWallState where
  x : Int
  y : Int
deriving DecidableEq, Repr

/-- `SteelWall.damage` (`src/BattleCityNES/sprites.py` lines 53-56): plays a
sound and returns false; the wall is never modified. -/
def steelDamage (w : SteelWallState) : SteelWallState × Bool := (w, false)

/-- Iterated `BrickWall.damage`: the wall state after `n` calls. -/
def brickDamageIter : Nat → BrickWallState → BrickWallState
  | 0, w => w
  | n + 1, w => (brickDamage (brickDamageIter n w)).1

/-- Wall kinds placed by the level loader of the sprite-group variant
(`src/level.py`). -/
inductive WallKind where
  | brick
  | steel
deriving DecidableEq, Repr

/-- The level objects populated by `Level.load_level` /
`Level._create_default_level` (`src/level.py`): base and player positions,
wall/water/bush placements, enemy spawn points, and the enemy data. -/
structure LevelConfig where
  base : Option (Int × Int)
  player : Option (Int × Int)
  walls : List (Int × Int × WallKind)
  waterTiles : List (Int × Int)
  bushes : List (Int × Int)
  spawnPoints : List (Int × Int)
  maxEnemies : Int
  enemyTypes : List Nat
deriving DecidableEq, Repr

/-- The configuration of a `Level` before any layout is parsed. -/
def emptyConfig : LevelConfig := ⟨none, none, [], [], [], [], 0, []⟩

/-- One cell of `Level._parse_layout` (`src/level.py` lines 63-96): place the
object selected by the layout character at pixel position (px, py); unknown
characters and spaces are skipped. -/
def parseCell (c : Char) (px py : Int) (cfg : LevelConfig) : LevelConfig :=
  if c = 'B' then { cfg with walls := cfg.walls ++ [(px, py, WallKind.brick)] }
  else if c = 'S' then { cfg with walls := cfg.walls ++ [(px, py, WallKind.steel)] }
  else if c = 'W' then { cfg with waterTiles := cfg.waterTiles ++ [(px, py)] }
  else if c = 'G' then { cfg with bushes := cfg.bushes ++ [(px, py)] }
  else if c = 'P' then { cfg with player := some (px, py) }
  else if c = 'E' then { cfg with spawnPoints := cfg.spawnPoints ++ [(px, py)] }
  else if c = 'X' then { cfg with base := some (px, py) }
  else cfg

/-- The column loop of `Level._parse_layout` for one row, skipping columns
past the end of a short row (`if x >= len(layout[y]): continue`). -/
def parseRow (row : List Char) (y : Nat) (cols : Nat) (cfg : LevelConfig) : LevelConfig :=
  (List.range cols).foldl
    (fun acc x =>
      match row.get? x with
      | none => acc
      | some c => parseCell c ((x : Int) * TILE_SIZE) ((y : Int) * TILE_SIZE) acc)
    cfg

/-- `Level._parse_layout`: iterate rows then columns, with the column count
taken from the first row. -/
def parseLayout (layout : List (List Char)) (cfg : LevelConfig) : LevelConfig :=
  let cols := (layout.headD []).length
  (layout.enum).foldl (fun acc p => parseRow p.2 p.1 cols acc) cfg

/-- The JSON payload of a level file (`levels/levelN.json`): the layout and
the enemy data read by `Level.load_level`. -/
structure LevelData where
  layout : List (List Char)
  enemyCount : Int
  enemyTypes : List Nat

/-- `Level._create_default_level` (`src/level.py` lines 98-141). The
`random.randint`/`random.random` draws that place the 30 random walls and the
10 water/bush pairs are passed in as lists of draws (position plus the
brick-vs-steel coin for walls), following the spec's seedable-randomness
design note; everything else is deterministic. -/
def createDefaultLevel (randWalls : List (Int × Int × Bool))
    (randWater randBush : List (Int × Int)) : LevelConfig :=
  { base := some (240, 448),
    player := some (240, 400),
    walls :=
      [(208, 416, WallKind.brick), (224, 416, WallKind.brick),
       (240, 416, WallKind.brick), (256, 416, WallKind.brick),
       (208, 432, WallKind.brick), (208, 448, WallKind.brick),
       (272, 432, WallKind.brick), (272, 448, WallKind.brick)]
      ++ randWalls.map (fun w => (w.1, w.2.1, if w.2.2 then WallKind.brick else WallKind.steel)),
    waterTiles := randWater,
    bushes := randBush,
    spawnPoints := [(0, 0), (240, 0), (480, 0)],
    maxEnemies := 10,
    enemyTypes := [1, 1, 1, 2, 2, 3] }

/-- `Level.load_level` (`src/level.py` lines 45-61): reading and parsing the
level file is fallible (modelled as an `Except` input covering any exception
while reading or parsing); on success the layout is parsed and the enemy data
set; on any failure the generated default level is substituted. The function
is total: no failure reaches the caller. -/
def loadLevel (input : Except String LevelData) (randWalls : List (Int × Int × Bool))
    (randWater randBush : List (Int × Int)) : LevelConfig :=
  match input with
  | .ok d =>
    { parseLayout d.layout emptyConfig with
        maxEnemies := d.enemyCount, enemyTypes := d.enemyTypes }
  | .error _ => createDefaultLevel randWalls randWater randBush

/-! Concrete states used by the counterexamples and witnesses. -/

/-- A player tank with fresh default stats, standing clear of the action. -/
def basePlayer : PlayerState :=
  { x := 300, y := 300, dir := .up, speed := 2, health := 1, lives := 3,
    power := 1, plevel := 1, reloadTime := 1000, shield := false, shieldTimer := 0,
    invincible := false, invincibleTimer := 0, spawnProtection := false, spawnTimer := 0 }

/-- A 20x15 all-empty terrain grid. -/
def emptyLevel : LevelState :=
  { width := 20, height := 15, grid := fun _ _ => Tile.empty, baseDestroyed := false }

/-- A quiescent game state: empty terrain, fresh player, no enemies, bullets,
or pending effects. -/
def gsBase : GameState :=
  { level := emptyLevel, player := basePlayer, enemies := [], bullets := [],
    score := 0, enemiesLeft := 20, enemiesOnScreen := 0, enemySpawnTimer := 0,
    enemyFreeze := false, freezeTimer := 0, spawnPowerUpCalls := 0,
    explosionsSmall := 0, explosionsLarge := 0 }

/-- Terrain with a single Brick tile at tile coordinates (3, 3). -/
def c1Level : LevelState :=
  { emptyLevel with grid := fun a b => if a = 3 ∧ b = 3 then Tile.brick else Tile.empty }

/-- Game state for the bullet-priority scenario: a Brick at tile (3, 3) and
the live player standing immediately to its right at pixel (128, 96). -/
def c1Game : GameState :=
  { gsBase with level := c1Level, player := { basePlayer with x := 128, y := 96 } }

/-- An enemy-owned bullet travelling left that will land on the Brick/player
boundary this tick. -/
def c1Bullet : BulletState :=
  { x := 132, y := 100, dir := .left, owner := .enemy 0, power := 1, toRemove := false }

/-- Claim C1: advancing a live bullet whose rectangle simultaneously overlaps
a solid terrain cell and a tank should cause at most one effect — the terrain
collision — and register no tank hit that tick. The code violates this: at the
concrete input below `Bullet.update` destroys the Brick (tile (3,3) becomes
Empty, bullet removed, small explosion spawned) AND still calls
`PlayerTank.hit`, dropping the player's lives from 3 to 2 in the same tick,
because `check_tank_collision` runs with no `to_remove` guard after
`check_terrain_collision`. -/
theorem c1_brick_and_tank_hit_same_tick :
    c1Game.level.grid 3 3 = Tile.brick
    ∧ c1Game.player.lives = 3
    ∧ (bulletUpdate c1Bullet c1Game).2.level.grid 3 3 = Tile.empty
    ∧ (bulletUpdate c1Bullet c1Game).1.toRemove = true
    ∧ (bulletUpdate c1Bullet c1Game).2.explosionsSmall = 1
    ∧ (bulletUpdate c1Bullet c1Game).2.player.lives = 2 := by
  decide

/-- A tank at the origin facing up. -/
def c2Tank : TankM := { x := 0, y := 0, dir := .up, speed := 2 }

/-- Game state with a Brick tile at tile (1, 0), directly right of `c2Tank`. -/
def c2Game : GameState :=
  { gsBase with level :=
      { emptyLevel with grid := fun a b => if a = 1 ∧ b = 0 then Tile.brick else Tile.empty } }

/-- Claim C2 counterexample: `Tank.move` sets the facing direction BEFORE the
collision checks, so a rejected move still turns the tank. Here a move to the
right into a Brick is rejected (returns false, position unchanged) yet the
facing changes from up to right, refuting "a rejected move leaves facing
unchanged". -/
theorem c2_rejected_move_updates_facing :
    (tankMove Owner.player 1 0 c2Tank c2Game).2 = false
    ∧ (tankMove Owner.player 1 0 c2Tank c2Game).1.x = 0
    ∧ (tankMove Owner.player 1 0 c2Tank c2Game).1.y = 0
    ∧ c2Tank.dir = Dir.up
    ∧ (tankMove Owner.player 1 0 c2Tank c2Game).1.dir = Dir.right := by
  decide

/-- Claim C3: on a fresh Brick wall, `damage` decrements the hit counter from
4; calls 1-3 return destroyed = false and leave the wall alive, the 4th call
(and only it) returns destroyed = true and kills the wall; `SteelWall.damage`
always returns false and never changes the wall. -/
theorem c3_brick_damage_four_hits :
    freshBrick.health = 4
    ∧ (brickDamage freshBrick).2 = false
    ∧ brickDamageIter 1 freshBrick = ⟨3, true⟩
    ∧ (brickDamage (brickDamageIter 1 freshBrick)).2 = false
    ∧ brickDamageIter 2 freshBrick = ⟨2, true⟩
    ∧ (brickDamage (brickDamageIter 2 freshBrick)).2 = false
    ∧ brickDamageIter 3 freshBrick = ⟨1, true⟩
    ∧ (brickDamage (brickDamageIter 3 freshBrick)).2 = true
    ∧ brickDamageIter 4 freshBrick = ⟨0, false⟩
    ∧ ∀ w : SteelWallState, steelDamage w = (w, false) := by
  exact ⟨rfl, by decide, by decide, by decide, by decide, by decide, by decide,
    by decide, by decide, fun w => rfl⟩

/-- Claim C5: a bullet from another tank overlapping the living player while
any invulnerability state (shield, invincibility, or spawn protection) is
active is still consumed (marked for removal), but the hit is a no-op on the
player: `PlayerTank.hit` returns false and the player state (health, lives)
is unchanged. -/
theorem c5_invulnerable_player_hit_noop (b : BulletState) (gs : GameState)
    (howner : b.owner ≠ Owner.player)
    (hlives : 0 < gs.player.lives)
    (hinv : (gs.player.invincible || gs.player.shield || gs.player.spawnProtection) = true)
    (hcol : (bulletRect b.x b.y b.dir).colliderect (playerRect gs.player) = true) :
    (checkTankCollision b.owner (bulletRect b.x b.y b.dir) b gs).1.toRemove = true
    ∧ (checkTankCollision b.owner (bulletRect b.x b.y b.dir) b gs).2.player = gs.player
    ∧ playerHit gs.player = (gs.player, false) := by
  have hb : (b.owner != Owner.player) = true := by
    simpa [bne_iff_ne] using howner
  have hph : playerHit gs.player = (gs.player, false) := by
    unfold playerHit
    rw [if_pos hinv]
  have hcond : ((b.owner != Owner.player) && decide (gs.player.lives > 0)
      && Rect.colliderect (bulletRect b.x b.y b.dir) (playerRect gs.player)) = true := by
    simp [hb, hcol, hlives]
  unfold checkTankCollision
  rw [hcond]
  simp [hph]

/-- A shielded player at the origin. -/
def c5Player : PlayerState := { basePlayer with x := 0, y := 0, shield := true }

/-- Game state with the shielded player. -/
def c5Game : GameState := { gsBase with player := c5Player }

/-- An enemy bullet overlapping the shielded player. -/
def c5Bullet : BulletState :=
  { x := 10, y := 10, dir := .up, owner := .enemy 0, power := 1, toRemove := false }

/-- Witness for claim C5 at a concrete shielded player and overlapping enemy
bullet. -/
theorem c5_invulnerable_player_hit_noop_witness :
    c5Bullet.owner ≠ Owner.player
    ∧ 0 < c5Game.player.lives
    ∧ (c5Game.player.invincible || c5Game.player.shield || c5Game.player.spawnProtection) = true
    ∧ (bulletRect c5Bullet.x c5Bullet.y c5Bullet.dir).colliderect (playerRect c5Game.player) = true
    ∧ (checkTankCollision c5Bullet.owner (bulletRect c5Bullet.x c5Bullet.y c5Bullet.dir)
        c5Bullet c5Game).1.toRemove = true
    ∧ (checkTankCollision c5Bullet.owner (bulletRect c5Bullet.x c5Bullet.y c5Bullet.dir)
        c5Bullet c5Game).2.player = c5Game.player
    ∧ playerHit c5Game.player = (c5Game.player, false) := by
  refine ⟨by decide, by decide, by decide, by decide, ?_⟩
  exact c5_invulnerable_player_hit_noop c5Bullet c5Game (by decide) (by decide)
    (by decide) (by decide)

/-- Game state with a single Steel tile at tile (3, 3). -/
def c6Game : GameState :=
  { gsBase with level :=
      { emptyLevel with grid := fun a b => if a = 3 ∧ b = 3 then Tile.steel else Tile.empty } }

/-- A player-owned bullet of the given power about to strike the Steel tile. -/
def c6Bullet (power : Int) : BulletState :=
  { x := 132, y := 100, dir := .left, owner := .player, power := power, toRemove := false }

/-- Claim C6: a bullet striking a Steel tile is always removed; the tile
becomes Empty exactly when the bullet's power exceeds 1 (power at least 2),
and remains Steel otherwise. Stated for every bullet power. -/
theorem c6_steel_tile_bullet_outcome (power : Int) :
    (bulletUpdate (c6Bullet power) c6Game).1.toRemove = true
    ∧ (bulletUpdate (c6Bullet power) c6Game).2.level.grid 3 3
        = (if power > 1 then Tile.empty else Tile.steel) := by
  by_cases h : power > 1
  · constructor <;>
      simp [bulletUpdate, c6Bullet, c6Game, gsBase, emptyLevel, basePlayer, bulletVel,
        bulletRect, terrainLoop, offsets9, tileRect, Rect.colliderect, setTile,
        checkTankCollision, enemyLoop, bulletLoop, playerRect, tankRect,
        SCREEN_WIDTH, SCREEN_HEIGHT, TILE_SIZE, BULLET_SPEED, h]
  · constructor <;>
      simp [bulletUpdate, c6Bullet, c6Game, gsBase, emptyLevel, basePlayer, bulletVel,
        bulletRect, terrainLoop, offsets9, tileRect, Rect.colliderect, setTile,
        checkTankCollision, enemyLoop, bulletLoop, playerRect, tankRect,
        SCREEN_WIDTH, SCREEN_HEIGHT, TILE_SIZE, BULLET_SPEED, h]

/-- Claim C8: a power-up's per-tick update marks it collected (expired) on the
tick its counter reaches the 600-tick lifespan, without applying any effect or
touching the game state (no score); and before the lifespan, a tick with no
player pickup leaves the collected flag and the game state unchanged. -/
theorem c8_powerup_expiry (pu : PowerUpState) (now : Int) (gs : GameState) :
    (pu.counter + 1 ≥ POWERUP_LIFESPAN →
      (powerUpUpdate pu now gs).1.collected = true
      ∧ (powerUpUpdate pu now gs).2.2 = false
      ∧ (powerUpUpdate pu now gs).2.1 = gs)
    ∧ (pu.counter + 1 < POWERUP_LIFESPAN →
      (decide (gs.player.lives > 0)
        && (Rect.mk pu.x pu.y TILE_SIZE TILE_SIZE).colliderect (playerRect gs.player)) = false →
      (powerUpUpdate pu now gs).1.collected = pu.collected
      ∧ (powerUpUpdate pu now gs).2.1 = gs
      ∧ (powerUpUpdate pu now gs).2.2 = false) := by
  unfold powerUpUpdate POWERUP_LIFESPAN
  constructor
  · intro h
    dsimp only
    split_ifs <;> simp_all
  · intro h hpick
    dsimp only
    split_ifs <;> simp_all <;> omega

/-- A power-up one tick away from its 600-tick lifespan. -/
def c8PowerUp : PowerUpState :=
  { x := 0, y := 0, ptype := GRENADE, collected := false, counter := 599,
    visible := true, blinkCounter := 0 }

/-- Witness for claim C8: the 600th update of an uncollected power-up expires
it with no effect and no score. -/
theorem c8_powerup_expiry_witness :
    c8PowerUp.counter + 1 ≥ POWERUP_LIFESPAN
    ∧ ((powerUpUpdate c8PowerUp 0 gsBase).1.collected = true
      ∧ (powerUpUpdate c8PowerUp 0 gsBase).2.2 = false
      ∧ (powerUpUpdate c8PowerUp 0 gsBase).2.1 = gsBase) := by
  exact ⟨by decide, (c8_powerup_expiry c8PowerUp 0 gsBase).1 (by decide)⟩

/-- Claim C9: when reading or parsing the level file fails (any error), the
loader substitutes the generated default level — base, player, walls, spawn
points, and enemy data all populated — and the failure never reaches the
caller (`loadLevel` is total). -/
theorem c9_default_level_fallback (e : String) (randWalls : List (Int × Int × Bool))
    (randWater randBush : List (Int × Int)) :
    (loadLevel (.error e) randWalls randWater randBush).base = some (240, 448)
    ∧ (loadLevel (.error e) randWalls randWater randBush).player = some (240, 400)
    ∧ (loadLevel (.error e) randWalls randWater randBush).spawnPoints
        = [(0, 0), (240, 0), (480, 0)]
    ∧ (loadLevel (.error e) randWalls randWater randBush).maxEnemies = 10
    ∧ (loadLevel (.error e) randWalls randWater randBush).enemyTypes = [1, 1, 1, 2, 2, 3]
    ∧ 0 < (loadLevel (.error e) randWalls randWater randBush).walls.length := by
  simp [loadLevel, createDefaultLevel]

/-- The grenade loop touches only the enemy list, the on-screen counter, the
score, and the explosion counter; every other field — in particular the
power-up spawn counter — is untouched, and the score grows by a flat 100 per
iterated enemy. -/
theorem grenadeLoop_fields (l : List Enemy) : ∀ gs : GameState,
    (grenadeLoop l gs).score = gs.score + 100 * l.length
    ∧ (grenadeLoop l gs).enemiesOnScreen = gs.enemiesOnScreen - l.length
    ∧ (grenadeLoop l gs).spawnPowerUpCalls = gs.spawnPowerUpCalls
    ∧ (grenadeLoop l gs).level = gs.level
    ∧ (grenadeLoop l gs).player = gs.player
    ∧ (grenadeLoop l gs).bullets = gs.bullets
    ∧ (grenadeLoop l gs).enemiesLeft = gs.enemiesLeft
    ∧ (grenadeLoop l gs).enemySpawnTimer = gs.enemySpawnTimer
    ∧ (grenadeLoop l gs).explosionsLarge = gs.explosionsLarge + l.length := by
  induction l with
  | nil => intro gs; simp [grenadeLoop]
  | cons e rest ih =>
    intro gs
    obtain ⟨h1, h2, h3, h4, h5, h6, h7, h8, h9⟩ :=
      ih { gs with explosionsLarge := gs.explosionsLarge + 1, score := gs.score + 100,
                   enemies := gs.enemies.erase e, enemiesOnScreen := gs.enemiesOnScreen - 1 }
    refine ⟨?_, ?_, ?_, ?_, ?_, ?_, ?_, ?_, ?_⟩ <;>
      simp only [grenadeLoop, h1, h2, h3, h4, h5, h6, h7, h8, h9, List.length_cons] <;>
      push_cast <;> omega

/-- Iterating the grenade loop over a snapshot of the live-enemy list empties
the live list. -/
theorem grenadeLoop_enemies (l : List Enemy) : ∀ gs : GameState,
    gs.enemies = l → (grenadeLoop l gs).enemies = [] := by
  induction l with
  | nil => intro gs h; simpa [grenadeLoop] using h
  | cons e rest ih =>
    intro gs h
    apply ih
    simp [grenadeLoop, h, List.erase_cons_head]

/-- Claim C10: the Grenade effect removes every live enemy immediately, awards
a flat 100 points per removed enemy regardless of its kind (the score delta is
100 times the enemy count, independent of the enemies' `tank_type` fields),
decrements the on-screen counter once per removed enemy, and never calls
`spawn_power_up`. -/
theorem c10_grenade_effect (gs : GameState) :
    (applyGrenade gs).enemies = []
    ∧ (applyGrenade gs).score = gs.score + 100 * gs.enemies.length
    ∧ (applyGrenade gs).enemiesOnScreen = gs.enemiesOnScreen - gs.enemies.length
    ∧ (applyGrenade gs).spawnPowerUpCalls = gs.spawnPowerUpCalls
    ∧ (applyGrenade gs).explosionsLarge = gs.explosionsLarge + gs.enemies.length := by
  obtain ⟨h1, h2, h3, _, _, _, _, _, h9⟩ := grenadeLoop_fields gs.enemies gs
  exact ⟨grenadeLoop_enemies gs.enemies gs rfl, h1, h2, h3, h9⟩

/-- Claim C2, amended: `Tank.move` rejects the move (returns false, position
unchanged) exactly when the candidate box exits the world bounds, overlaps
solid terrain (Brick, Steel, Water, Base), or overlaps another tank's box; on
acceptance it applies the position delta; but the facing direction is updated
to match the move vector (horizontal preferred) BEFORE the collision checks,
so the facing changes even on a rejected move. -/
theorem c2_move_rejection_spec (who : Owner) (dx dy : Int) (t : TankM) (gs : GameState) :
    (tankMove who dx dy t gs).1.dir = moveDir dx dy t.dir
    ∧ ((tankMove who dx dy t gs).2 = false →
        (tankMove who dx dy t gs).1.x = t.x ∧ (tankMove who dx dy t gs).1.y = t.y)
    ∧ ((tankMove who dx dy t gs).2 = true →
        (tankMove who dx dy t gs).1.x = t.x + dx * t.speed
        ∧ (tankMove who dx dy t gs).1.y = t.y + dy * t.speed)
    ∧ ((tankMove who dx dy t gs).2 = true ↔
        (0 ≤ t.x + dx * t.speed ∧ t.x + dx * t.speed ≤ SCREEN_WIDTH - TILE_SIZE
          ∧ 0 ≤ t.y + dy * t.speed ∧ t.y + dy * t.speed ≤ SCREEN_HEIGHT - TILE_SIZE)
        ∧ checkTerrainBlock gs.level
            ⟨t.x + dx * t.speed, t.y + dy * t.speed, TILE_SIZE, TILE_SIZE⟩ = false
        ∧ checkTankBlock who
            ⟨t.x + dx * t.speed, t.y + dy * t.speed, TILE_SIZE, TILE_SIZE⟩ gs = false) := by
  unfold tankMove
  dsimp only
  split_ifs with h1 h2 h3 <;> refine ⟨rfl, ?_, ?_, ?_⟩ <;> (first | (simp_all; omega) | simp_all)

/-- Witness for the amended claim C2 at the concrete rejected move of the
counterexample. -/
theorem c2_move_rejection_spec_witness :
    (tankMove Owner.player 1 0 c2Tank c2Game).1.dir = moveDir 1 0 c2Tank.dir
    ∧ ((tankMove Owner.player 1 0 c2Tank c2Game).2 = false →
        (tankMove Owner.player 1 0 c2Tank c2Game).1.x = c2Tank.x
        ∧ (tankMove Owner.player 1 0 c2Tank c2Game).1.y = c2Tank.y)
    ∧ ((tankMove Owner.player 1 0 c2Tank c2Game).2 = true →
        (tankMove Owner.player 1 0 c2Tank c2Game).1.x = c2Tank.x + 1 * c2Tank.speed
        ∧ (tankMove Owner.player 1 0 c2Tank c2Game).1.y = c2Tank.y + 0 * c2Tank.speed)
    ∧ ((tankMove Owner.player 1 0 c2Tank c2Game).2 = true ↔
        (0 ≤ c2Tank.x + 1 * c2Tank.speed
          ∧ c2Tank.x + 1 * c2Tank.speed ≤ SCREEN_WIDTH - TILE_SIZE
          ∧ 0 ≤ c2Tank.y + 0 * c2Tank.speed
          ∧ c2Tank.y + 0 * c2Tank.speed ≤ SCREEN_HEIGHT - TILE_SIZE)
        ∧ checkTerrainBlock c2Game.level
            ⟨c2Tank.x + 1 * c2Tank.speed, c2Tank.y + 0 * c2Tank.speed,
              TILE_SIZE, TILE_SIZE⟩ = false
        ∧ checkTankBlock Owner.player
            ⟨c2Tank.x + 1 * c2Tank.speed, c2Tank.y + 0 * c2Tank.speed,
              TILE_SIZE, TILE_SIZE⟩ c2Game = false) :=
  c2_move_rejection_spec Owner.player 1 0 c2Tank c2Game

/-- `set_tile` never touches the `base_destroyed` flag. -/
theorem setTile_baseDestroyed (lv : LevelState) (cx cy : Int) (t : Tile) :
    (setTile lv cx cy t).baseDestroyed = lv.baseDestroyed := by
  unfold setTile
  split <;> rfl

/-- The bullet terrain scan never lowers the `base_destroyed` flag: once true,
it stays true through any outcome of the scan. -/
theorem terrainLoop_base_mono (r : Rect) (p tx ty : Int) (lv : LevelState)
    (h : lv.baseDestroyed = true) :
    ∀ L : List (Int × Int), (terrainLoop r p tx ty lv L).level.baseDestroyed = true := by
  intro L
  induction L with
  | nil => simpa [terrainLoop] using h
  | cons hd tl ih =>
    obtain ⟨dx, dy⟩ := hd
    simp only [terrainLoop]
    split
    · exact ih
    · split
      · split
        · simp [setTile_baseDestroyed, h]
        · split
          · simp [setTile_baseDestroyed, h]
          · simpa using h
        · simp
        · exact ih
      · exact ih

/-- `Bullet.check_tank_collision` never touches the terrain. -/
theorem checkTankCollision_level (o : Owner) (r : Rect) (b : BulletState) (gs : GameState) :
    (checkTankCollision o r b gs).2.level = gs.level := by
  unfold checkTankCollision
  dsimp only
  split
  · rfl
  · split <;> rfl

/-- `Bullet.update` never lowers the `base_destroyed` flag. -/
theorem bulletUpdate_base_mono (b : BulletState) (gs : GameState)
    (h : gs.level.baseDestroyed = true) :
    (bulletUpdate b gs).2.level.baseDestroyed = true := by
  unfold bulletUpdate
  dsimp only
  split
  · exact h
  · split <;> split <;>
      (simp only [checkTankCollision_level]
       exact terrainLoop_base_mono _ _ _ _ _ h _)

/-- The spec-modelled base-wall upgrade changes only the grid, never the
`base_destroyed` flag. -/
theorem upgradeBaseWalls_baseDestroyed (lv : LevelState) :
    (upgradeBaseWalls lv).baseDestroyed = lv.baseDestroyed := rfl

/-- `PowerUp.apply_effect` never changes the `base_destroyed` flag (the Shovel
branch rewrites only bricks around the base; the Grenade branch touches only
enemies and counters). -/
theorem applyEffect_baseDestroyed (ptype : Nat) (now : Int) (gs : GameState) :
    (applyEffect ptype now gs).level.baseDestroyed = gs.level.baseDestroyed := by
  obtain ⟨_, _, _, hlevel, _⟩ := grenadeLoop_fields gs.enemies gs
  unfold applyEffect
  split_ifs <;> simp [applyGrenade, hlevel, upgradeBaseWalls_baseDestroyed]

/-- `PowerUp.update` never changes the `base_destroyed` flag. -/
theorem powerUpUpdate_baseDestroyed (pu : PowerUpState) (now : Int) (gs : GameState) :
    (powerUpUpdate pu now gs).2.1.level.baseDestroyed = gs.level.baseDestroyed := by
  unfold powerUpUpdate
  dsimp only
  split_ifs <;> simp [applyEffect_baseDestroyed]

/-- `Game.spawn_enemies` never touches the terrain. -/
theorem spawnEnemies_level (now : Int) (positions : List (Int × Int)) (choice ttype : Nat)
    (gs : GameState) : (spawnEnemies now positions choice ttype gs).level = gs.level := by
  unfold spawnEnemies
  split <;> [skip; rfl]
  split <;> rfl

/-- Tank movement never touches the terrain. -/
theorem applyEnemyMove_level (i : Nat) (dx dy : Int) (gs : GameState) :
    (applyEnemyMove i dx dy gs).level = gs.level := by
  unfold applyEnemyMove
  split <;> rfl

/-- One in-level simulation step never lowers the `base_destroyed` flag. -/
theorem step_base_mono {gs gs' : GameState} (hstep : Step gs gs')
    (h : gs.level.baseDestroyed = true) : gs'.level.baseDestroyed = true := by
  cases hstep with
  | bullet b gs => exact bulletUpdate_base_mono b gs h
  | playerMove dx dy gs => exact h
  | enemyMove i dx dy gs => rw [applyEnemyMove_level]; exact h
  | powerUp pu now gs => rw [powerUpUpdate_baseDestroyed]; exact h
  | spawn now positions choice ttype gs => rw [spawnEnemies_level]; exact h
  | respawn pos now gs => exact h
  | status now gs => exact h

/-- Claim C4: once a bullet tick leaves the base destroyed, every state
reachable by further in-level steps still has the base destroyed, and the
lose-condition check of `Game.update_playing` returns true there — regardless
of how many player lives remain (no hypothesis constrains the lives). -/
theorem c4_base_destruction_permanent (b : BulletState) (gs gs' : GameState)
    (hhit : (bulletUpdate b gs).2.level.baseDestroyed = true)
    (hreach : Relation.ReflTransGen Step (bulletUpdate b gs).2 gs') :
    gs'.level.baseDestroyed = true ∧ loseCheck gs' = true := by
  have hbase : gs'.level.baseDestroyed = true := by
    induction hreach with
    | refl => exact hhit
    | tail hsteps hstep ih => exact step_base_mono hstep ih
  exact ⟨hbase, by simp [loseCheck, hbase]⟩

/-- Game state with the Base tile at tile (3, 3) and the player alive with all
3 lives. -/
def c4Game : GameState :=
  { gsBase with level :=
      { emptyLevel with grid := fun a b => if a = 3 ∧ b = 3 then Tile.base else Tile.empty } }

/-- A player-owned bullet about to strike the Base tile. -/
def c4Bullet : BulletState :=
  { x := 132, y := 100, dir := .left, owner := .player, power := 1, toRemove := false }

/-- Witness for claim C4: a concrete bullet destroys the base; at that very
state (zero further steps) the base is destroyed and the lose check fires even
though the player still has 3 lives. -/
theorem c4_base_destruction_permanent_witness :
    (bulletUpdate c4Bullet c4Game).2.level.baseDestroyed = true
    ∧ (bulletUpdate c4Bullet c4Game).2.player.lives = 3
    ∧ ((bulletUpdate c4Bullet c4Game).2.level.baseDestroyed = true
      ∧ loseCheck (bulletUpdate c4Bullet c4Game).2 = true) := by
  refine ⟨by decide, by decide, ?_⟩
  exact c4_base_destruction_permanent c4Bullet c4Game (bulletUpdate c4Bullet c4Game).2
    (by decide) Relation.ReflTransGen.refl

/-- The bullet's enemy loop removes at most one enemy, and the removal count
exactly accounts for the change in list length. -/
theorem enemyLoop_length (o : Owner) (r : Rect) :
    ∀ (l : List Enemy) (i : Nat),
      (enemyLoop o r i l).enemies.length + (enemyLoop o r i l).removed = l.length := by
  intro l
  induction l with
  | nil => intro i; simp [enemyLoop]
  | cons e rest ih =>
    intro i
    simp only [enemyLoop]
    split
    · split <;> simp
    · have := ih (i + 1)
      simp only [List.length_cons]
      omega

/-- `Bullet.check_tank_collision` preserves the enemy-count invariant: the
on-screen counter is decremented exactly when an enemy is removed. -/
theorem checkTankCollision_inv (o : Owner) (r : Rect) (b : BulletState) (gs : GameState)
    (h : EnemyCountInv gs) : EnemyCountInv (checkTankCollision o r b gs).2 := by
  obtain ⟨h1, h2⟩ := h
  unfold checkTankCollision
  dsimp only
  split
  · exact ⟨h1, h2⟩
  · split
    · have hlen := enemyLoop_length o r gs.enemies 0
      refine ⟨?_, ?_⟩ <;> (dsimp only; omega)
    · exact ⟨h1, h2⟩

/-- `Bullet.update` preserves the enemy-count invariant. -/
theorem bulletUpdate_inv (b : BulletState) (gs : GameState) (h : EnemyCountInv gs) :
    EnemyCountInv (bulletUpdate b gs).2 := by
  unfold bulletUpdate
  dsimp only
  split
  · exact h
  · split <;> split <;>
      exact checkTankCollision_inv _ _ _ _ ⟨h.1, h.2⟩

/-- The grenade effect preserves the enemy-count invariant: it empties the
enemy list and zeroes the on-screen counter with it. -/
theorem applyGrenade_inv (gs : GameState) (h : EnemyCountInv gs) :
    EnemyCountInv (applyGrenade gs) := by
  obtain ⟨h1, h2⟩ := h
  obtain ⟨_, hscreen, _⟩ := grenadeLoop_fields gs.enemies gs
  have hemp := grenadeLoop_enemies gs.enemies gs rfl
  unfold applyGrenade at *
  constructor
  · rw [hemp, hscreen]
    simp only [List.length_nil, Nat.cast_zero]
    omega
  · rw [hemp]
    simp

/-- `PowerUp.apply_effect` preserves the enemy-count invariant for every
power-up kind. -/
theorem applyEffect_inv (ptype : Nat) (now : Int) (gs : GameState) (h : EnemyCountInv gs) :
    EnemyCountInv (applyEffect ptype now gs) := by
  unfold applyEffect
  split_ifs <;> first | exact h | exact applyGrenade_inv gs h

/-- `PowerUp.update` preserves the enemy-count invariant. -/
theorem powerUpUpdate_inv (pu : PowerUpState) (now : Int) (gs : GameState)
    (h : EnemyCountInv gs) : EnemyCountInv (powerUpUpdate pu now gs).2.1 := by
  unfold powerUpUpdate
  dsimp only
  split_ifs <;> first | exact h | exact applyEffect_inv _ _ _ h

/-- `Game.spawn_enemies` preserves the enemy-count invariant: the spawn is
guarded by the on-screen counter being strictly below the cap of 4, and even
when the timer has elapsed (by any margin) at most one enemy is created per
call. -/
theorem spawnEnemies_inv (now : Int) (positions : List (Int × Int)) (choice ttype : Nat)
    (gs : GameState) (h : EnemyCountInv gs) :
    EnemyCountInv (spawnEnemies now positions choice ttype gs) := by
  obtain ⟨h1, h2⟩ := h
  unfold spawnEnemies
  dsimp only
  split
  · next hc =>
    have hlt : gs.enemiesOnScreen < 4 := by
      simp only [Bool.and_eq_true, decide_eq_true_eq, MAX_ENEMIES_ON_SCREEN] at hc
      exact hc.1.2
    split
    · exact ⟨h1, h2⟩
    · refine ⟨?_, ?_⟩ <;>
        (dsimp only
         simp only [List.length_append, List.length_cons, List.length_nil]
         omega)
  · exact ⟨h1, h2⟩

/-- Moving an enemy tank preserves the enemy-count invariant (the list length
is unchanged by an in-place position update). -/
theorem applyEnemyMove_inv (i : Nat) (dx dy : Int) (gs : GameState) (h : EnemyCountInv gs) :
    EnemyCountInv (applyEnemyMove i dx dy gs) := by
  unfold applyEnemyMove
  split
  · exact h
  · constructor
    · simpa [List.length_set] using h.1
    · simpa [List.length_set] using h.2

/-- Every in-level simulation step preserves the enemy-count invariant. -/
theorem step_inv {gs gs' : GameState} (hstep : Step gs gs') (h : EnemyCountInv gs) :
    EnemyCountInv gs' := by
  cases hstep with
  | bullet b gs => exact bulletUpdate_inv b gs h
  | playerMove dx dy gs => exact h
  | enemyMove i dx dy gs => exact applyEnemyMove_inv i dx dy gs h
  | powerUp pu now gs => exact powerUpUpdate_inv pu now gs h
  | spawn now positions choice ttype gs => exact spawnEnemies_inv now positions choice ttype gs h
  | respawn pos now gs => exact h
  | status now gs => exact h

/-- Claim C7: from any state satisfying the enemy-count bookkeeping invariant
(in particular the level-start state with no enemies), every reachable state
has at most 4 simultaneously live enemies — the spawner creates an enemy only
below the cap and within the quota, even if the spawn timer elapses multiple
times while at the cap. -/
theorem c7_enemy_cap_invariant (gs0 gs : GameState) (h0 : EnemyCountInv gs0)
    (hreach : Relation.ReflTransGen Step gs0 gs) :
    gs.enemies.length ≤ 4 ∧ EnemyCountInv gs := by
  have hinv : EnemyCountInv gs := by
    induction hreach with
    | refl => exact h0
    | tail hsteps hstep ih => exact step_inv hstep ih
  exact ⟨hinv.2, hinv⟩

/-- Witness for claim C7: starting from the quiescent level-start state, one
elapsed spawn-timer step creates one enemy and the cap invariant holds at the
resulting state. -/
theorem c7_enemy_cap_invariant_witness :
    EnemyCountInv gsBase
    ∧ ((spawnEnemies 4000 [(0, 0)] 0 0 gsBase).enemies.length ≤ 4
      ∧ EnemyCountInv (spawnEnemies 4000 [(0, 0)] 0 0 gsBase)) := by
  refine ⟨⟨rfl, by decide⟩, ?_⟩
  exact c7_enemy_cap_invariant gsBase (spawnEnemies 4000 [(0, 0)] 0 0 gsBase)
    ⟨rfl, by decide⟩
    (Relation.ReflTransGen.single (Step.spawn 4000 [(0, 0)] 0 0 gsBase))

end BattleCity
